import Mathlib

/-!
# Verification of the solana_risein_course programs

Shallow embedding, in Lean 4, of the three on-chain programs of the
repository (`restaurant_review`, `counter`, `CPI_Transfer`) together with
the parts of the borsh codec they use, and proofs of the specification
claims about them.

Bytes are modelled as `Nat` (a buffer is a `List Nat`, every entry below
256 in any real buffer), Rust `String`s as their UTF-8 byte lists, and
public keys as `Nat`.  SHA-256-based program-derived-address computation
(`Pubkey::find_program_address`) is not reimplemented: every definition
and theorem that needs it is parametrised by a derivation function, so
the theorems hold for the real derivation in particular.
-/

namespace RiseIn

/-- The `solana_program::program_error::ProgramError` values this code can
produce.  `custom c` embeds `ProgramError::Custom(c)`, the image of the
program's own `ReviewError` (`e as u32`). -/
inductive ProgramError where
  | invalidInstructionData
  | missingRequiredSignature
  | invalidArgument
  | illegalOwner
  | invalidAccountData
  | invalidSeeds
  | notEnoughAccountKeys
  | borshIoError
  | accountAlreadyInUse
  | custom (code : Nat)
deriving DecidableEq, Repr

/-- Enum `ReviewError` from `src/restaurant_review/src/state.rs`, in source
declaration order (which fixes the `e as u32` discriminants 0, 1, 2). -/
inductive ReviewError where
  | uninitializedAccount
  | invalidPDA
  | invalidRating
deriving DecidableEq, Repr

/-- Conversion `impl From<ReviewError> for ProgramError`: `ProgramError::Custom(e as u32)`. -/
def ReviewError.toProgramError : ReviewError → ProgramError
  | .uninitializedAccount => .custom 0
  | .invalidPDA => .custom 1
  | .invalidRating => .custom 2

/-! ## Borsh primitives

The borsh deserializer used by the source (`try_from_slice`,
`deserialize`) and the serializer (`serialize` into a `&mut [u8]`
writer), restricted to the types that occur: `bool`, `u8`, `u32`
(little-endian) and `String` (u32 length prefix, UTF-8 payload). -/

/-- Is `b` a UTF-8 continuation byte (`0x80..=0xBF`)? -/
def isCont (b : Nat) : Bool := 128 ≤ b && b ≤ 191

/-- UTF-8 validity of a byte list, as checked by Rust's
`String::from_utf8` during borsh `String` deserialization. -/
def isValidUtf8 : List Nat → Bool
  | [] => true
  | b :: rest =>
    if b ≤ 127 then isValidUtf8 rest
    else if b < 194 then false
    else if b ≤ 223 then
      match rest with
      | c :: r => isCont c && isValidUtf8 r
      | [] => false
    else if b ≤ 239 then
      match rest with
      | c1 :: c2 :: r =>
        (if b = 224 then decide (160 ≤ c1 && c1 ≤ 191)
         else if b = 237 then decide (128 ≤ c1 && c1 ≤ 159)
         else isCont c1) && isCont c2 && isValidUtf8 r
      | _ => false
    else if b ≤ 244 then
      match rest with
      | c1 :: c2 :: c3 :: r =>
        (if b = 240 then decide (144 ≤ c1 && c1 ≤ 191)
         else if b = 244 then decide (128 ≤ c1 && c1 ≤ 143)
         else isCont c1) && isCont c2 && isCont c3 && isValidUtf8 r
      | _ => false
    else false

/-- Borsh `u8` deserialization: one byte. -/
def parseU8 : List Nat → Except Unit (Nat × List Nat)
  | [] => .error ()
  | b :: r => .ok (b, r)

/-- Borsh `bool` deserialization: one byte that must be 0 or 1. -/
def parseBool : List Nat → Except Unit (Bool × List Nat)
  | 0 :: r => .ok (false, r)
  | 1 :: r => .ok (true, r)
  | _ => .error ()

/-- Borsh `u32` deserialization: four little-endian bytes. -/
def parseU32 : List Nat → Except Unit (Nat × List Nat)
  | b0 :: b1 :: b2 :: b3 :: r =>
    .ok (b0 + 256 * b1 + 65536 * b2 + 16777216 * b3, r)
  | _ => .error ()

/-- Borsh `String` deserialization: u32 length prefix, then that many
bytes, which must form valid UTF-8. -/
def parseString (l : List Nat) : Except Unit (List Nat × List Nat) :=
  match parseU32 l with
  | .error e => .error e
  | .ok (n, r) =>
    if n ≤ r.length then
      if isValidUtf8 (r.take n) then .ok (r.take n, r.drop n) else .error ()
    else .error ()

/-- Borsh `u32` serialization: four little-endian bytes. -/
def serU32 (n : Nat) : List Nat :=
  [n % 256, n / 256 % 256, n / 65536 % 256, n / 16777216 % 256]

/-- Borsh `String` serialization: u32 length prefix, then the bytes. -/
def serString (s : List Nat) : List Nat := serU32 s.length ++ s

/-- Borsh `bool` serialization. -/
def serBool (b : Bool) : List Nat := [if b then 1 else 0]

/-! ## Record state (`src/restaurant_review/src/state.rs`) -/

/-- Struct `AccountState`, fields in source declaration order (which fixes the
borsh field order): `is_initialized`, `rating`, `description`, `title`. -/
structure AccountState where
  is_initialized : Bool
  rating : Nat
  description : List Nat
  title : List Nat
deriving DecidableEq, Repr

/-- Borsh serialization of `AccountState` (field order as declared). -/
def serAccountState (a : AccountState) : List Nat :=
  serBool a.is_initialized ++ [a.rating] ++
    serString a.description ++ serString a.title

/-- Borsh `AccountState::deserialize`: reads the four fields in order and
leaves any remaining bytes unconsumed (no all-bytes-read check). -/
def deserAccountState (l : List Nat) :
    Except Unit (AccountState × List Nat) :=
  match parseBool l with
  | .error e => .error e
  | .ok (ini, r1) =>
    match parseU8 r1 with
    | .error e => .error e
    | .ok (rat, r2) =>
      match parseString r2 with
      | .error e => .error e
      | .ok (desc, r3) =>
        match parseString r3 with
        | .error e => .error e
        | .ok (tit, r4) => .ok (⟨ini, rat, desc, tit⟩, r4)

/-- A valid, fully initialized record: `is_initialized` set, `rating` a
`u8`, both strings valid UTF-8 with a representable `u32` length. -/
def validRecord (a : AccountState) : Bool :=
  a.is_initialized && a.rating < 256 &&
    a.description.length < 4294967296 && a.title.length < 4294967296 &&
    isValidUtf8 a.description && isValidUtf8 a.title

/-! ### Round-trip lemmas for the codec -/

theorem parseU32_serU32 (n : Nat) (r : List Nat) (h : n < 4294967296) :
    parseU32 (serU32 n ++ r) = .ok (n, r) := by
  simp only [serU32, List.cons_append, List.nil_append, parseU32]
  congr 1
  congr 1
  omega

theorem parseString_serString (s : List Nat) (r : List Nat)
    (hlen : s.length < 4294967296) (hutf : isValidUtf8 s = true) :
    parseString (serString s ++ r) = .ok (s, r) := by
  simp only [serString, List.append_assoc, parseString,
    parseU32_serU32 s.length (s ++ r) hlen]
  rw [if_pos (by simp), List.take_left, List.drop_left]
  simp [hutf]

theorem deser_serAccountState (a : AccountState) (r : List Nat)
    (hd : a.description.length < 4294967296)
    (ht : a.title.length < 4294967296)
    (hud : isValidUtf8 a.description = true)
    (hut : isValidUtf8 a.title = true) :
    deserAccountState (serAccountState a ++ r) = .ok (a, r) := by
  obtain ⟨ini, rat, desc, tit⟩ := a
  cases ini <;>
    simp [serAccountState, serBool, deserAccountState, parseBool, parseU8,
      parseString_serString desc _ hd hud,
      parseString_serString tit _ ht hut]

/-! ## Instruction codecs

`ReviewInstruction::unpack` (`src/restaurant_review/src/instruction.rs`)
returns `Result<Self, ProgramError>` and maps every borsh failure to an
error; `CounterInstructions::unpack` (`src/counter/src/instructions.rs`)
calls `.unwrap()` on the payload parse, so a malformed payload is a
*panic*, not an error value — its embedding therefore has a third
outcome. -/

/-- Struct `ReviewPayload` (private struct of `instruction.rs`), borsh field
order: `title`, `rating`, `description`. -/
structure ReviewPayload where
  title : List Nat
  rating : Nat
  description : List Nat
deriving DecidableEq, Repr

/-- Borsh deserialization of `ReviewPayload` (fields in order, leftover
bytes returned). -/
def parseReviewPayload (l : List Nat) :
    Except Unit (ReviewPayload × List Nat) :=
  match parseString l with
  | .error e => .error e
  | .ok (t, r1) =>
    match parseU8 r1 with
    | .error e => .error e
    | .ok (rat, r2) =>
      match parseString r2 with
      | .error e => .error e
      | .ok (d, r3) => .ok (⟨t, rat, d⟩, r3)

/-- Borsh `ReviewPayload::try_from_slice`: deserialize and require that
every byte was consumed (borsh errors on leftover bytes). -/
def ReviewPayload.tryFromSlice (l : List Nat) : Except Unit ReviewPayload :=
  match parseReviewPayload l with
  | .ok (p, []) => .ok p
  | .ok (_, _ :: _) => .error ()
  | .error e => .error e

/-- Enum `ReviewInstruction` from `instruction.rs`. -/
inductive ReviewInstruction where
  | addReview (title : List Nat) (rating : Nat) (description : List Nat)
  | updateReview (title : List Nat) (rating : Nat) (description : List Nat)
deriving DecidableEq, Repr

/-- Function `ReviewInstruction::unpack`: split off the first byte, parse the
payload (before inspecting the variant, as the source does), then match
the variant: 0 is AddReview, 1 is UpdateReview, anything else an error.
All failures are `ProgramError::InvalidInstructionData`. -/
def ReviewInstruction.unpack (input : List Nat) :
    Except ProgramError ReviewInstruction :=
  match input with
  | [] => .error .invalidInstructionData
  | variant :: rest =>
    match ReviewPayload.tryFromSlice rest with
    | .error _ => .error .invalidInstructionData
    | .ok payload =>
      match variant with
      | 0 => .ok (.addReview payload.title payload.rating payload.description)
      | 1 => .ok (.updateReview payload.title payload.rating payload.description)
      | _ => .error .invalidInstructionData

/-- Outcome of a Rust function that can also panic (`unwrap` on `Err`). -/
inductive UnpackResult (α : Type) where
  | ok (a : α)
  | err (e : ProgramError)
  | panic
deriving DecidableEq, Repr

/-- Struct `CounterArgs` from `src/counter/src/instructions.rs`: one `u32`. -/
structure CounterArgs where
  value : Nat
deriving DecidableEq, Repr

/-- Borsh deserialization of `CounterArgs` (leftover bytes returned). -/
def parseCounterArgs (l : List Nat) : Except Unit (CounterArgs × List Nat) :=
  match parseU32 l with
  | .error e => .error e
  | .ok (v, r) => .ok (⟨v⟩, r)

/-- Borsh `CounterArgs::try_from_slice`: deserialize and require that
every byte was consumed. -/
def CounterArgs.tryFromSlice (l : List Nat) : Except Unit CounterArgs :=
  match parseCounterArgs l with
  | .ok (a, []) => .ok a
  | .ok (_, _ :: _) => .error ()
  | .error e => .error e

/-- Enum `CounterInstructions` from `instructions.rs`. -/
inductive CounterInstructions where
  | increment (args : CounterArgs)
  | decrement (args : CounterArgs)
  | update (args : CounterArgs)
  | reset
deriving DecidableEq, Repr

/-- Function `CounterInstructions::unpack`: split off the first byte, then match
the variant; variants 0–2 parse the payload with
`try_from_slice(rest).unwrap()` — a parse failure panics. -/
def CounterInstructions.unpack (input : List Nat) :
    UnpackResult CounterInstructions :=
  match input with
  | [] => .err .invalidInstructionData
  | variant :: rest =>
    match variant with
    | 0 => match CounterArgs.tryFromSlice rest with
           | .ok a => .ok (.increment a)
           | .error _ => .panic
    | 1 => match CounterArgs.tryFromSlice rest with
           | .ok a => .ok (.decrement a)
           | .error _ => .panic
    | 2 => match CounterArgs.tryFromSlice rest with
           | .ok a => .ok (.update a)
           | .error _ => .panic
    | 3 => .ok .reset
    | _ => .err .invalidInstructionData

/-! ## Accounts and the host interface -/

/-- The slice of `solana_program::account_info::AccountInfo` the programs
read or write: address, signer flag, owner, lamports, data buffer. -/
structure AccountInfo where
  key : Nat
  is_signer : Bool
  owner : Nat
  lamports : Nat
  data : List Nat
deriving DecidableEq, Repr

/-- Function `next_account_info`: the next account of the iterator, or
`ProgramError::NotEnoughAccountKeys`. -/
def nextAccountInfo :
    List AccountInfo → Except ProgramError (AccountInfo × List AccountInfo)
  | [] => .error .notEnoughAccountKeys
  | a :: r => .ok (a, r)

/-- Writing `bytes` through the `std::io::Write` instance of
`&mut [u8]`, as borsh `serialize` does: sequential `write_all` calls
copy into the front of the buffer; if the bytes do not fit, the buffer
holds the truncated prefix and the write reports failure
(`WriteZero`, surfaced as a borsh io error). -/
def writeToSlice (bytes buf : List Nat) : List Nat × Bool :=
  if bytes.length ≤ buf.length then (bytes ++ buf.drop bytes.length, true)
  else (bytes.take buf.length, false)

/-- Value of `Rent::default().minimum_balance(space)`:
`((128 + space) * lamports_per_byte_year) * exemption_threshold` with the
default parameters 3480 lamports/byte-year and 2.0 years. -/
def rentMinimumBalance (space : Nat) : Nat := (128 + space) * 3480 * 2

/-- Modelled from the spec: the system program's account creation
(reached through `invoke_signed` of
`system_instruction::create_account`, code outside this repository) —
"fails if the slot is already initialized — enforced by the host's
allocate-once semantics"; on success the new account is owned by the
requested owner, funded with the requested lamports, and its data is
`space` zero bytes. -/
def createAccountCpi (newOwner : Nat) (lamports space : Nat)
    (pda : AccountInfo) : Except ProgramError AccountInfo :=
  if pda.data.length ≠ 0 ∨ pda.lamports ≠ 0 then .error .accountAlreadyInUse
  else .ok { pda with owner := newOwner, lamports := lamports,
                      data := List.replicate space 0 }

/-- Result of running one handler: the error, if any, and the
in-process account list as the handler left it (a failing borsh
`serialize` leaves a truncated prefix in the buffer; the host discards
it, see `hostCommit`). -/
structure RunResult where
  err : Option ProgramError
  accounts : List AccountInfo
deriving DecidableEq, Repr

/-- Modelled from the spec: the host ledger, out of scope of `src/`,
"enforces atomicity of a whole operation" — "on any failure inside an
operation ... all buffer writes performed so far within that operation
must be discarded as a unit".  The observable account state is the
handler's final state on success and the original state on any error. -/
def hostCommit (orig : List AccountInfo) (r : RunResult) : List AccountInfo :=
  match r.err with
  | some _ => orig
  | none => r.accounts

/-! ## `add_review` and `update_review`
(`src/restaurant_review/src/lib.rs`)

Both are parametrised by `derive`, standing for
`Pubkey::find_program_address(&[initializer.key.as_ref(),
title.as_bytes()], program_id)` with the `program_id` already applied:
`derive caller titleBytes = (pda, bump)`. -/

/-- Handler `add_review`: extract initializer / pda_account / system_program,
check the signature, re-derive and check the PDA, validate the rating,
create the account through the system program, and serialize the fresh
`AccountState` into the 1000-byte buffer. -/
def add_review (program_id : Nat) (derive : Nat → List Nat → Nat × Nat)
    (accounts : List AccountInfo)
    (title : List Nat) (rating : Nat) (description : List Nat) : RunResult :=
  match accounts with
  | initializer :: pda_account :: system_program :: rest =>
    if ¬ initializer.is_signer then
      ⟨some .missingRequiredSignature, accounts⟩
    else if (derive initializer.key title).1 ≠ pda_account.key then
      ⟨some .invalidArgument, accounts⟩
    else if rating > 10 ∨ rating < 1 then
      ⟨some ReviewError.invalidRating.toProgramError, accounts⟩
    else
      let account_len := 1000
      let rent_lamports := rentMinimumBalance account_len
      match createAccountCpi program_id rent_lamports account_len pda_account with
      | .error e => ⟨some e, accounts⟩
      | .ok pda1 =>
        let initializer1 :=
          { initializer with lamports := initializer.lamports - rent_lamports }
        let account_data : AccountState := ⟨true, rating, description, title⟩
        let w := writeToSlice (serAccountState account_data) pda1.data
        let accounts1 :=
          initializer1 :: { pda1 with data := w.1 } :: system_program :: rest
        if w.2 then ⟨none, accounts1⟩ else ⟨some .borshIoError, accounts1⟩
  | _ => ⟨some .notEnoughAccountKeys, accounts⟩

/-- Handler `update_review`: extract initializer / pda_account, check the
owner, check the signature, deserialize the stored state, re-derive the
PDA from the signer and the *stored* title (the payload title is the
unused `_title`), check it, require the record initialized, validate
the rating, overwrite rating and description, and serialize back. -/
def update_review (program_id : Nat) (derive : Nat → List Nat → Nat × Nat)
    (accounts : List AccountInfo)
    (title : List Nat) (rating : Nat) (description : List Nat) : RunResult :=
  match accounts with
  | initializer :: pda_account :: rest =>
    if pda_account.owner ≠ program_id then
      ⟨some .illegalOwner, accounts⟩
    else if ¬ initializer.is_signer then
      ⟨some .missingRequiredSignature, accounts⟩
    else
      match deserAccountState pda_account.data with
      | .error _ => ⟨some .invalidAccountData, accounts⟩
      | .ok (account_data, _) =>
        if (derive initializer.key account_data.title).1 ≠ pda_account.key then
          ⟨some ReviewError.invalidPDA.toProgramError, accounts⟩
        else if ¬ account_data.is_initialized then
          ⟨some ReviewError.uninitializedAccount.toProgramError, accounts⟩
        else if rating > 10 ∨ rating < 1 then
          ⟨some ReviewError.invalidRating.toProgramError, accounts⟩
        else
          let new_data : AccountState :=
            { account_data with rating := rating, description := description }
          let w := writeToSlice (serAccountState new_data) pda_account.data
          let accounts1 := initializer :: { pda_account with data := w.1 } :: rest
          if w.2 then ⟨none, accounts1⟩ else ⟨some .borshIoError, accounts1⟩
  | _ => ⟨some .notEnoughAccountKeys, accounts⟩

/-- Entry point `process_instruction` of the review program: unpack, then route.
The payload `title` of `UpdateReview` is passed through but unused
there (`_title`). -/
def processReview (program_id : Nat) (derive : Nat → List Nat → Nat × Nat)
    (accounts : List AccountInfo) (instruction_data : List Nat) : RunResult :=
  match ReviewInstruction.unpack instruction_data with
  | .error e => ⟨some e, accounts⟩
  | .ok (.addReview t r d) => add_review program_id derive accounts t r d
  | .ok (.updateReview t r d) => update_review program_id derive accounts t r d

/-! ## The CPI transfer program (`src/CPI_Transfer/src/lib.rs`)

The program reads five accounts, checks that the supplied authority is
the PDA derived from the single seed `b"authority"`, unpacks the source
token account and the mint (SPL-token library code, passed in here as
parameters `unpackTokenAccount` / `unpackMint`), and dispatches a
`transfer_checked` instruction through `invoke_signed` with a hardcoded
amount of 100.  The embedding returns the dispatched instruction: the
token program that executes it is outside this repository. -/

/-- The fields of an SPL token account the program touches. -/
structure TokenAccount where
  amount : Nat
deriving DecidableEq, Repr

/-- The fields of an SPL mint the program touches. -/
structure MintData where
  decimals : Nat
deriving DecidableEq, Repr

/-- The bytes of the seed literal `b"authority"`. -/
def authoritySeed : List Nat := [97, 117, 116, 104, 111, 114, 105, 116, 121]

/-- The `transfer_checked` instruction built and dispatched through
`invoke_signed`, together with the signer seeds attached to the
dispatch. -/
structure TransferCheckedInstr where
  token_program : Nat
  source : Nat
  mint : Nat
  destination : Nat
  authority : Nat
  amount : Nat
  decimals : Nat
  signer_seeds : List (List Nat)
deriving DecidableEq, Repr

/-- Entry point `process_instruction` of `CPI_Transfer`.  `deriveAuth program_id`
stands for `Pubkey::find_program_address(&[b"authority"], program_id)`;
`unpackTokenAccount` / `unpackMint` stand for `spl_token`'s
`Account::unpack` / `Mint::unpack` (library code outside this
repository).  `instruction_data` is received and ignored
(`_instruction_data`).  On success the result is the dispatched
instruction; the program writes no account buffer itself. -/
def cpiTransferProcess (program_id : Nat)
    (deriveAuth : Nat → Nat × Nat)
    (unpackTokenAccount : List Nat → Except ProgramError TokenAccount)
    (unpackMint : List Nat → Except ProgramError MintData)
    (accounts : List AccountInfo) (instruction_data : List Nat) :
    Except ProgramError TransferCheckedInstr :=
  match nextAccountInfo accounts with
  | .error e => .error e
  | .ok (source_info, rest1) =>
    match nextAccountInfo rest1 with
    | .error e => .error e
    | .ok (mint_info, rest2) =>
      match nextAccountInfo rest2 with
      | .error e => .error e
      | .ok (destination_info, rest3) =>
        match nextAccountInfo rest3 with
        | .error e => .error e
        | .ok (authority_info, rest4) =>
          match nextAccountInfo rest4 with
          | .error e => .error e
          | .ok (token_program_info, _) =>
            let ed := deriveAuth program_id
            if ed.1 ≠ authority_info.key then .error .invalidSeeds
            else
              match unpackTokenAccount source_info.data with
              | .error e => .error e
              | .ok _source_account =>
                let amount := 100
                match unpackMint mint_info.data with
                | .error e => .error e
                | .ok mint =>
                  .ok { token_program := token_program_info.key
                        source := source_info.key
                        mint := mint_info.key
                        destination := destination_info.key
                        authority := authority_info.key
                        amount := amount
                        decimals := mint.decimals
                        signer_seeds := [authoritySeed ++ [ed.2]] }

/-- The CPI transfer program as a handler over account state: it never
writes any account buffer itself (the transfer is executed by the
external token program), so the in-process account list is returned
unchanged, with the error when one occurred. -/
def cpiTransferRun (program_id : Nat)
    (deriveAuth : Nat → Nat × Nat)
    (unpackTokenAccount : List Nat → Except ProgramError TokenAccount)
    (unpackMint : List Nat → Except ProgramError MintData)
    (accounts : List AccountInfo) (instruction_data : List Nat) : RunResult :=
  match cpiTransferProcess program_id deriveAuth unpackTokenAccount unpackMint
      accounts instruction_data with
  | .error e => ⟨some e, accounts⟩
  | .ok _ => ⟨none, accounts⟩

/-! ## Guard predicates used to state the claims -/

/-- The checks of `add_review` that precede its rating validation:
signer flag set and claimed PDA equal to the derived one. -/
def addReachesRating (derive : Nat → List Nat → Nat × Nat)
    (initializer pda_account : AccountInfo) (title : List Nat) : Bool :=
  initializer.is_signer &&
    ((derive initializer.key title).1 == pda_account.key)

/-- The checks of `update_review` that precede its rating validation:
owner, signer, decodable state, PDA derived from the stored title equal
to the claimed one, record initialized. -/
def updReachesRating (program_id : Nat)
    (derive : Nat → List Nat → Nat × Nat)
    (initializer pda_account : AccountInfo) : Bool :=
  (pda_account.owner == program_id) && initializer.is_signer &&
    (match deserAccountState pda_account.data with
     | .ok (st, _) =>
       ((derive initializer.key st.title).1 == pda_account.key) &&
         st.is_initialized
     | .error _ => false)

/-- The only error `createAccountCpi` can produce. -/
theorem createAccountCpi_error_eq {o l s : Nat} {p : AccountInfo}
    {e : ProgramError} (h : createAccountCpi o l s p = .error e) :
    e = .accountAlreadyInUse := by
  unfold createAccountCpi at h
  split at h <;> simp_all

/-! ## Claim C3 -/

/-- C3: for every AddReview and every UpdateReview operation that has
passed the signature and address checks (and, for update, the owner,
state-decode and initialization checks that also precede the rating
validation), the rating is rejected with `ReviewError::InvalidRating`
exactly when it is 0 or at least 11; every rating in 1..=10 passes the
rating validation. -/
theorem review_rating_bounds (program_id : Nat)
    (derive : Nat → List Nat → Nat × Nat)
    (initializer pda_account system_program : AccountInfo)
    (restA restU : List AccountInfo)
    (t tu : List Nat) (r : Nat) (d : List Nat)
    (ha : addReachesRating derive initializer pda_account t = true)
    (hu : updReachesRating program_id derive initializer pda_account = true) :
    ((add_review program_id derive
        (initializer :: pda_account :: system_program :: restA) t r d).err
      = some ReviewError.invalidRating.toProgramError ↔ (r = 0 ∨ 11 ≤ r))
    ∧ ((update_review program_id derive
        (initializer :: pda_account :: restU) tu r d).err
      = some ReviewError.invalidRating.toProgramError ↔ (r = 0 ∨ 11 ≤ r)) := by
  simp only [addReachesRating, Bool.and_eq_true, beq_iff_eq] at ha
  obtain ⟨hs, hp⟩ := ha
  simp only [updReachesRating, Bool.and_eq_true, beq_iff_eq] at hu
  obtain ⟨⟨ho, hs2⟩, hrest⟩ := hu
  constructor
  · simp only [add_review]
    rw [if_neg (by simp [hs]), if_neg (by simp [hp])]
    by_cases hr : r > 10 ∨ r < 1
    · rw [if_pos hr]
      exact ⟨fun _ => by omega, fun _ => rfl⟩
    · rw [if_neg hr]
      refine ⟨fun hbad => ?_, fun hb => absurd hb (by omega)⟩
      exfalso
      split at hbad
      · rename_i e heq
        have he := createAccountCpi_error_eq heq
        subst he
        simp [ReviewError.toProgramError] at hbad
      · split at hbad <;> simp [ReviewError.toProgramError] at hbad
  · cases hde : deserAccountState pda_account.data with
    | error e => rw [hde] at hrest; simp at hrest
    | ok str =>
      obtain ⟨st, rest⟩ := str
      rw [hde] at hrest
      simp only [Bool.and_eq_true, beq_iff_eq] at hrest
      obtain ⟨hpda, hini⟩ := hrest
      simp only [update_review]
      rw [if_neg (by simp [ho]), if_neg (by simp [hs2]), hde]
      simp only [ne_eq, hpda, not_true_eq_false, if_false, hini,
        Bool.not_eq_true, ite_false]
      by_cases hr : r > 10 ∨ r < 1
      · rw [if_pos hr]
        exact ⟨fun _ => by omega, fun _ => rfl⟩
      · rw [if_neg hr]
        refine ⟨fun hbad => ?_, fun hb => absurd hb (by omega)⟩
        exfalso
        split at hbad <;> simp [ReviewError.toProgramError] at hbad

/-- Witness for C3 at a concrete guard-passing state: rating 5 (in
range) is not rejected, under a derivation mapping everything to
address 7. -/
theorem review_rating_bounds_witness :
    ((add_review 2 (fun _ _ => (7, 255))
        (⟨3, true, 0, 0, []⟩ :: ⟨7, false, 2, 1,
          [1, 5, 1, 0, 0, 0, 65, 1, 0, 0, 0, 66]⟩ :: ⟨0, false, 0, 0, []⟩ :: [])
        [66] 5 [65]).err
      = some ReviewError.invalidRating.toProgramError ↔ (5 = 0 ∨ 11 ≤ 5))
    ∧ ((update_review 2 (fun _ _ => (7, 255))
        (⟨3, true, 0, 0, []⟩ :: ⟨7, false, 2, 1,
          [1, 5, 1, 0, 0, 0, 65, 1, 0, 0, 0, 66]⟩ :: [])
        [66] 5 [65]).err
      = some ReviewError.invalidRating.toProgramError ↔ (5 = 0 ∨ 11 ≤ 5)) :=
  review_rating_bounds 2 (fun _ _ => (7, 255))
    ⟨3, true, 0, 0, []⟩
    ⟨7, false, 2, 1, [1, 5, 1, 0, 0, 0, 65, 1, 0, 0, 0, 66]⟩
    ⟨0, false, 0, 0, []⟩ [] [] [66] [66] 5 [65]
    (by decide) (by decide)

/-! ## Claim C7 -/

/-- C7: for every valid, fully initialized record and every buffer of
sufficient capacity, serializing the record into the buffer and then
deserializing the buffer returns the record (and leaves the padding of
the buffer as the unconsumed remainder). -/
theorem record_roundtrip (a : AccountState) (buf : List Nat)
    (hv : validRecord a = true)
    (hcap : (serAccountState a).length ≤ buf.length) :
    deserAccountState (writeToSlice (serAccountState a) buf).1 =
      .ok (a, buf.drop (serAccountState a).length) := by
  simp only [validRecord, Bool.and_eq_true, decide_eq_true_eq] at hv
  obtain ⟨⟨⟨⟨⟨-, -⟩, hd⟩, ht⟩, hud⟩, hut⟩ := hv
  simp only [writeToSlice, if_pos hcap]
  exact deser_serAccountState a _ hd ht hud hut

/-- Witness for C7: the record (initialized, rating 9, description "G",
title "P") round-trips through a 20-byte buffer. -/
theorem record_roundtrip_witness :
    deserAccountState
        (writeToSlice (serAccountState ⟨true, 9, [71], [80]⟩)
          (List.replicate 20 0)).1 =
      .ok (⟨true, 9, [71], [80]⟩,
        (List.replicate 20 0).drop
          (serAccountState ⟨true, 9, [71], [80]⟩).length) :=
  record_roundtrip ⟨true, 9, [71], [80]⟩ (List.replicate 20 0)
    (by decide) (by decide)

/-! ## Claim C1

The claim says an `Update` whose payload title differs from the title
used at creation fails with `ReviewError::InvalidPDA`.  In the source,
`update_review` receives the payload title as the unused `_title` and
re-derives the PDA from the caller and the *stored* title, so for the
original creator the check passes and the update is applied no matter
what payload title is sent. -/

/-- C1 counterexample: a slot created by caller 3 under title "B"
(`[66]`; the slot's address 7 is the one derived from caller 3 and
`[66]`, and its stored state decodes to title `[66]`).  The creator
sends an Update whose payload title "C" (`[67]`) differs from the
creation title, yet the operation succeeds (`err = none`) instead of
failing with `ReviewError::InvalidPDA` (`Custom 1`). -/
theorem update_review_payload_title_cex :
    (([67] : List Nat) ≠ [66])
    ∧ deserAccountState
        ([1, 5, 1, 0, 0, 0, 65, 1, 0, 0, 0, 66] ++ List.replicate 8 0) =
        .ok (⟨true, 5, [65], [66]⟩, List.replicate 8 0)
    ∧ ((fun (_ : Nat) (_ : List Nat) => ((7 : Nat), (255 : Nat))) 3 [66]).1 = 7
    ∧ (update_review 2 (fun _ _ => (7, 255))
        (⟨3, true, 0, 0, []⟩ ::
          ⟨7, false, 2, 1,
            [1, 5, 1, 0, 0, 0, 65, 1, 0, 0, 0, 66] ++ List.replicate 8 0⟩ :: [])
        [67] 6 [68]).err = none
    ∧ (update_review 2 (fun _ _ => (7, 255))
        (⟨3, true, 0, 0, []⟩ ::
          ⟨7, false, 2, 1,
            [1, 5, 1, 0, 0, 0, 65, 1, 0, 0, 0, 66] ++ List.replicate 8 0⟩ :: [])
        [67] 6 [68]).err ≠ some ReviewError.invalidPDA.toProgramError :=
  ⟨by decide, rfl, rfl, rfl, by decide⟩

/-- C1 (amended): `update_review` never inspects the payload title —
its result is independent of it — and `ReviewError::InvalidPDA` is
returned exactly when the address re-derived from the caller identity
and the *stored* title differs from the target slot's address (given
that the owner, signature and state-decode checks pass); in particular
the original creator's update is applied whatever payload title it
carries, rather than rejected. -/
theorem update_review_title_ignored (program_id : Nat)
    (derive : Nat → List Nat → Nat × Nat)
    (initializer pda_account : AccountInfo) (rest : List AccountInfo)
    (t : List Nat) (r : Nat) (d : List Nat)
    (st : AccountState) (rem : List Nat)
    (ho : pda_account.owner = program_id)
    (hs : initializer.is_signer = true)
    (hde : deserAccountState pda_account.data = .ok (st, rem)) :
    (∀ ta tb : List Nat,
      update_review program_id derive (initializer :: pda_account :: rest) ta r d =
        update_review program_id derive (initializer :: pda_account :: rest) tb r d)
    ∧ ((update_review program_id derive
          (initializer :: pda_account :: rest) t r d).err =
            some ReviewError.invalidPDA.toProgramError ↔
        (derive initializer.key st.title).1 ≠ pda_account.key) := by
  refine ⟨fun ta tb => rfl, ?_⟩
  simp only [update_review]
  rw [if_neg (by simp [ho]), if_neg (by simp [hs]), hde]
  simp only [ne_eq]
  by_cases hpda : (derive initializer.key st.title).1 = pda_account.key
  · rw [if_neg (by simp [hpda])]
    refine ⟨fun hbad => ?_, fun hb => (hb hpda).elim⟩
    exfalso
    split at hbad
    · simp [ReviewError.toProgramError] at hbad
    · split at hbad
      · simp [ReviewError.toProgramError] at hbad
      · split at hbad <;> simp [ReviewError.toProgramError] at hbad
  · rw [if_pos hpda]
    exact ⟨fun _ => hpda, fun _ => rfl⟩

/-- Witness for C1 (amended), at the state of the counterexample: the
result does not depend on the payload title, and InvalidPDA is
equivalent to the re-derived address differing (here it matches, so no
InvalidPDA). -/
theorem update_review_title_ignored_witness :
    (∀ ta tb : List Nat,
      update_review 2 (fun _ _ => (7, 255))
        (⟨3, true, 0, 0, []⟩ ::
          ⟨7, false, 2, 1,
            [1, 5, 1, 0, 0, 0, 65, 1, 0, 0, 0, 66] ++ List.replicate 8 0⟩ :: [])
        ta 6 [68] =
      update_review 2 (fun _ _ => (7, 255))
        (⟨3, true, 0, 0, []⟩ ::
          ⟨7, false, 2, 1,
            [1, 5, 1, 0, 0, 0, 65, 1, 0, 0, 0, 66] ++ List.replicate 8 0⟩ :: [])
        tb 6 [68])
    ∧ ((update_review 2 (fun _ _ => (7, 255))
          (⟨3, true, 0, 0, []⟩ ::
            ⟨7, false, 2, 1,
              [1, 5, 1, 0, 0, 0, 65, 1, 0, 0, 0, 66] ++ List.replicate 8 0⟩ :: [])
          [67] 6 [68]).err = some ReviewError.invalidPDA.toProgramError ↔
        ((fun (_ : Nat) (_ : List Nat) => ((7 : Nat), (255 : Nat))) 3
            (AccountState.mk true 5 [65] [66]).title).1 ≠
          (AccountInfo.mk 7 false 2 1
            ([1, 5, 1, 0, 0, 0, 65, 1, 0, 0, 0, 66] ++ List.replicate 8 0)).key) :=
  update_review_title_ignored 2 (fun _ _ => (7, 255))
    ⟨3, true, 0, 0, []⟩
    ⟨7, false, 2, 1, [1, 5, 1, 0, 0, 0, 65, 1, 0, 0, 0, 66] ++ List.replicate 8 0⟩
    [] [67] 6 [68] ⟨true, 5, [65], [66]⟩ (List.replicate 8 0)
    rfl rfl rfl

/-! ## Claim C2

The claim says the guard always checks the signature first, and that an
unsigned mutation on a foreign-owned slot yields the missing-signature
error.  In the source, `update_review` checks the owner *before* the
signature. -/

/-- C2 counterexample: an unsigned UpdateReview on a slot whose owner
(9) is not the program (5) returns `ProgramError::IllegalOwner`, not
`ProgramError::MissingRequiredSignature`. -/
theorem update_review_owner_first_cex :
    ((⟨1, false, 0, 0, []⟩ : AccountInfo).is_signer = false)
    ∧ ((⟨2, false, 9, 0, []⟩ : AccountInfo).owner ≠ 5)
    ∧ (update_review 5 (fun _ _ => (0, 255))
        (⟨1, false, 0, 0, []⟩ :: ⟨2, false, 9, 0, []⟩ :: [])
        [] 5 []).err = some .illegalOwner
    ∧ ProgramError.illegalOwner ≠ ProgramError.missingRequiredSignature := by
  decide

/-- C2 (amended): for creation (`add_review`) the order is as claimed —
missing signature first, then address mismatch, with no owner check;
for mutation (`update_review`) the wrong-owner check comes *first*,
then the missing-signature check, then (after decoding the stored
state) the address-mismatch check; in particular an unsigned mutation
on a foreign-owned slot returns the wrong-owner error, not the
missing-signature error. -/
theorem guard_check_order (program_id : Nat)
    (derive : Nat → List Nat → Nat × Nat)
    (initializer pda_account system_program : AccountInfo)
    (restA restU : List AccountInfo)
    (t tu : List Nat) (r : Nat) (d : List Nat) :
    (initializer.is_signer = false →
      (add_review program_id derive
        (initializer :: pda_account :: system_program :: restA) t r d).err =
        some .missingRequiredSignature)
    ∧ (initializer.is_signer = true →
        (derive initializer.key t).1 ≠ pda_account.key →
      (add_review program_id derive
        (initializer :: pda_account :: system_program :: restA) t r d).err =
        some .invalidArgument)
    ∧ (pda_account.owner ≠ program_id →
      (update_review program_id derive
        (initializer :: pda_account :: restU) tu r d).err =
        some .illegalOwner)
    ∧ (pda_account.owner = program_id → initializer.is_signer = false →
      (update_review program_id derive
        (initializer :: pda_account :: restU) tu r d).err =
        some .missingRequiredSignature)
    ∧ (∀ st rem, pda_account.owner = program_id →
        initializer.is_signer = true →
        deserAccountState pda_account.data = .ok (st, rem) →
        (derive initializer.key st.title).1 ≠ pda_account.key →
      (update_review program_id derive
        (initializer :: pda_account :: restU) tu r d).err =
        some ReviewError.invalidPDA.toProgramError) := by
  refine ⟨fun h1 => ?_, fun h1 h2 => ?_, fun h1 => ?_, fun h1 h2 => ?_,
    fun st rem h1 h2 h3 h4 => ?_⟩
  · simp [add_review, h1]
  · simp only [add_review]
    rw [if_neg (by simp [h1]), if_pos h2]
  · simp only [update_review]
    rw [if_pos h1]
  · simp only [update_review]
    rw [if_neg (by simp [h1]), if_pos (by simp [h2])]
  · simp only [update_review]
    rw [if_neg (by simp [h1]), if_neg (by simp [h2]), h3]
    simp only [ne_eq]
    rw [if_pos (by simpa using h4)]

/-- Witness for C2 (amended): each clause applied at a concrete state
that satisfies its hypotheses. -/
theorem guard_check_order_witness :
    ((add_review 5 (fun _ _ => (0, 255))
        (⟨1, false, 0, 0, []⟩ :: ⟨2, false, 9, 0, []⟩ :: ⟨0, false, 0, 0, []⟩ :: [])
        [] 5 []).err = some .missingRequiredSignature)
    ∧ ((add_review 5 (fun _ _ => (0, 255))
        (⟨1, true, 0, 0, []⟩ :: ⟨2, false, 9, 0, []⟩ :: ⟨0, false, 0, 0, []⟩ :: [])
        [] 5 []).err = some .invalidArgument)
    ∧ ((update_review 5 (fun _ _ => (0, 255))
        (⟨1, false, 0, 0, []⟩ :: ⟨2, false, 9, 0, []⟩ :: [])
        [] 5 []).err = some .illegalOwner)
    ∧ ((update_review 5 (fun _ _ => (0, 255))
        (⟨1, false, 0, 0, []⟩ :: ⟨2, false, 5, 0,
          [1, 5, 1, 0, 0, 0, 65, 1, 0, 0, 0, 66]⟩ :: [])
        [] 5 []).err = some .missingRequiredSignature)
    ∧ ((update_review 5 (fun _ _ => (0, 255))
        (⟨1, true, 0, 0, []⟩ :: ⟨2, false, 5, 0,
          [1, 5, 1, 0, 0, 0, 65, 1, 0, 0, 0, 66]⟩ :: [])
        [] 5 []).err = some ReviewError.invalidPDA.toProgramError) :=
  ⟨(guard_check_order 5 (fun _ _ => (0, 255)) ⟨1, false, 0, 0, []⟩
      ⟨2, false, 9, 0, []⟩ ⟨0, false, 0, 0, []⟩ [] [] [] [] 5 []).1 rfl,
   (guard_check_order 5 (fun _ _ => (0, 255)) ⟨1, true, 0, 0, []⟩
      ⟨2, false, 9, 0, []⟩ ⟨0, false, 0, 0, []⟩ [] [] [] [] 5 []).2.1 rfl
      (by decide),
   (guard_check_order 5 (fun _ _ => (0, 255)) ⟨1, false, 0, 0, []⟩
      ⟨2, false, 9, 0, []⟩ ⟨0, false, 0, 0, []⟩ [] [] [] [] 5 []).2.2.1
      (by decide),
   (guard_check_order 5 (fun _ _ => (0, 255)) ⟨1, false, 0, 0, []⟩
      ⟨2, false, 5, 0, [1, 5, 1, 0, 0, 0, 65, 1, 0, 0, 0, 66]⟩
      ⟨0, false, 0, 0, []⟩ [] [] [] [] 5 []).2.2.2.1 rfl rfl,
   (guard_check_order 5 (fun _ _ => (0, 255)) ⟨1, true, 0, 0, []⟩
      ⟨2, false, 5, 0, [1, 5, 1, 0, 0, 0, 65, 1, 0, 0, 0, 66]⟩
      ⟨0, false, 0, 0, []⟩ [] [] [] [] 5 []).2.2.2.2
      ⟨true, 5, [65], [66]⟩ [] rfl rfl rfl (by decide)⟩

/-! ## Claim C4

The claim says both unpack functions return a typed operation or an
error value and never panic.  `ReviewInstruction::unpack` does;
`CounterInstructions::unpack` calls `.unwrap()` on the payload parse of
variants 0–2, so a malformed payload panics. -/

/-- C4 counterexample: the buffer `[0]` has the valid variant tag 0 but
an empty payload; `CounterInstructions::unpack` panics on it (the
`unwrap` of a failed `try_from_slice`) instead of returning an error
value, while the same tag with a well-formed payload decodes fine. -/
theorem counter_unpack_panic_cex :
    CounterInstructions.unpack [0] = .panic
    ∧ CounterInstructions.unpack [0, 1, 0, 0, 0] = .ok (.increment ⟨1⟩) := by
  decide

/-- C4 (amended): instruction decoding is total, and returns an error
value for the empty buffer, for a first byte outside the closed variant
set, and — for `ReviewInstruction::unpack` — for a payload that does
not parse; but `CounterInstructions::unpack` *panics* (instead of
returning an error) when the payload of variants 0–2 does not parse,
while its variant 3 (Reset) carries no payload and always decodes. -/
theorem unpack_totality (v : Nat) (rest : List Nat) :
    (ReviewInstruction.unpack [] = .error .invalidInstructionData)
    ∧ (2 ≤ v →
      ReviewInstruction.unpack (v :: rest) = .error .invalidInstructionData)
    ∧ (ReviewPayload.tryFromSlice rest = .error () →
      ReviewInstruction.unpack (v :: rest) = .error .invalidInstructionData)
    ∧ (CounterInstructions.unpack [] = .err .invalidInstructionData)
    ∧ (4 ≤ v →
      CounterInstructions.unpack (v :: rest) = .err .invalidInstructionData)
    ∧ (v ≤ 2 → CounterArgs.tryFromSlice rest = .error () →
      CounterInstructions.unpack (v :: rest) = .panic)
    ∧ (CounterInstructions.unpack (3 :: rest) = .ok .reset) := by
  refine ⟨rfl, fun hv => ?_, fun h => ?_, rfl, fun hv => ?_,
    fun hv h => ?_, rfl⟩
  · rcases v with _ | _ | n
    · omega
    · omega
    · cases h : ReviewPayload.tryFromSlice rest with
      | error e => simp [ReviewInstruction.unpack, h]
      | ok p => simp [ReviewInstruction.unpack, h]
  · simp [ReviewInstruction.unpack, h]
  · rcases v with _ | _ | _ | _ | n
    · omega
    · omega
    · omega
    · omega
    · rfl
  · rcases v with _ | _ | _ | n
    · simp [CounterInstructions.unpack, h]
    · simp [CounterInstructions.unpack, h]
    · simp [CounterInstructions.unpack, h]
    · omega

/-- Witness for C4 (amended): each hypothesis-bearing clause applied at
a concrete buffer. -/
theorem unpack_totality_witness :
    (ReviewInstruction.unpack (7 :: [0, 0, 0, 0, 1, 0, 0, 0, 0]) =
      .error .invalidInstructionData)
    ∧ (ReviewInstruction.unpack (0 :: [9]) = .error .invalidInstructionData)
    ∧ (CounterInstructions.unpack (9 :: [1, 0, 0, 0]) =
      .err .invalidInstructionData)
    ∧ (CounterInstructions.unpack (1 :: [5]) = .panic) :=
  ⟨(unpack_totality 7 [0, 0, 0, 0, 1, 0, 0, 0, 0]).2.1 (by omega),
   (unpack_totality 0 [9]).2.2.1 rfl,
   (unpack_totality 9 [1, 0, 0, 0]).2.2.2.2.1 (by omega),
   (unpack_totality 1 [5]).2.2.2.2.2.1 (by omega) rfl⟩

/-! ## Claim C5

The claim says every decoder tolerates trailing bytes after a
well-formed payload and applies one consistent policy.  In fact borsh's
`try_from_slice` rejects leftover bytes, so `ReviewInstruction::unpack`
errors on them, `CounterInstructions::unpack` variants 0–2 panic on
them (rejection via `unwrap`), and only the payload-less variant 3
ignores them — neither tolerated nor consistent. -/

/-- C5 counterexample: `[0][well-formed payload]` decodes, but the same
buffer with one extra trailing byte is rejected
(`InvalidInstructionData`), not tolerated; the counter decoder panics
on a trailing byte for variant 0 yet tolerates trailing bytes for
variant 3, so no one consistent policy exists either. -/
theorem trailing_bytes_cex :
    ReviewInstruction.unpack [0, 0, 0, 0, 0, 1, 0, 0, 0, 0] =
      .ok (.addReview [] 1 [])
    ∧ ReviewInstruction.unpack [0, 0, 0, 0, 0, 1, 0, 0, 0, 0, 0] =
      .error .invalidInstructionData
    ∧ CounterInstructions.unpack [0, 1, 0, 0, 0, 99] = .panic
    ∧ CounterInstructions.unpack [3, 99] = .ok .reset :=
  ⟨rfl, rfl, rfl, rfl⟩

/-- C5 (amended): trailing bytes after a well-formed payload are *not*
tolerated by the payload-carrying decoders — `ReviewInstruction::unpack`
returns `InvalidInstructionData` and `CounterInstructions::unpack`
panics for variants 0–2 — while the payload-less counter variant 3
ignores everything after the tag; there is no single consistent
trailing-bytes policy. -/
theorem trailing_bytes_policy (v : Nat) (rest : List Nat)
    (p : ReviewPayload) (a : CounterArgs) (x : Nat) (extra : List Nat) :
    (parseReviewPayload rest = .ok (p, x :: extra) →
      ReviewInstruction.unpack (v :: rest) = .error .invalidInstructionData)
    ∧ (v ≤ 2 → parseCounterArgs rest = .ok (a, x :: extra) →
      CounterInstructions.unpack (v :: rest) = .panic)
    ∧ (CounterInstructions.unpack (3 :: rest) = .ok .reset) := by
  refine ⟨fun h => ?_, fun hv h => ?_, rfl⟩
  · simp [ReviewInstruction.unpack, ReviewPayload.tryFromSlice, h]
  · rcases v with _ | _ | _ | n
    · simp [CounterInstructions.unpack, CounterArgs.tryFromSlice, h]
    · simp [CounterInstructions.unpack, CounterArgs.tryFromSlice, h]
    · simp [CounterInstructions.unpack, CounterArgs.tryFromSlice, h]
    · omega

/-- Witness for C5 (amended), at concrete well-formed payloads followed
by one trailing byte. -/
theorem trailing_bytes_policy_witness :
    (ReviewInstruction.unpack (1 :: [0, 0, 0, 0, 1, 0, 0, 0, 0, 7]) =
      .error .invalidInstructionData)
    ∧ (CounterInstructions.unpack (2 :: [1, 0, 0, 0, 9]) = .panic)
    ∧ (CounterInstructions.unpack (3 :: [1, 0, 0, 0, 9]) = .ok .reset) :=
  ⟨(trailing_bytes_policy 1 [0, 0, 0, 0, 1, 0, 0, 0, 0, 7]
      ⟨[], 1, []⟩ ⟨1⟩ 7 []).1 rfl,
   (trailing_bytes_policy 2 [1, 0, 0, 0, 9]
      ⟨[], 1, []⟩ ⟨1⟩ 9 []).2.1 (by omega) rfl,
   (trailing_bytes_policy 3 [1, 0, 0, 0, 9]
      ⟨[], 1, []⟩ ⟨1⟩ 9 []).2.2⟩

/-! ## Helper lemmas about the codec and the handlers -/

theorem writeToSlice_ok_iff (b l : List Nat) :
    (writeToSlice b l).2 = true ↔ b.length ≤ l.length := by
  unfold writeToSlice
  split <;> simp_all

theorem writeToSlice_fst_of_le {b l : List Nat} (h : b.length ≤ l.length) :
    (writeToSlice b l).1 = b ++ l.drop b.length := by
  unfold writeToSlice
  rw [if_pos h]

theorem parseU32_rest_length {l r : List Nat} {n : Nat}
    (h : parseU32 l = .ok (n, r)) : r.length + 4 = l.length := by
  unfold parseU32 at h
  split at h
  · simp only [Except.ok.injEq, Prod.mk.injEq] at h
    obtain ⟨-, rfl⟩ := h
    simp
  · exact absurd h (by simp)

theorem parseString_facts {l s r : List Nat}
    (h : parseString l = .ok (s, r)) :
    isValidUtf8 s = true ∧ s.length ≤ l.length ∧ r.length ≤ l.length := by
  unfold parseString at h
  split at h
  · exact absurd h (by simp)
  · rename_i n rr hu
    have hlen := parseU32_rest_length hu
    split at h
    · rename_i hle
      split at h
      · rename_i hutf
        simp only [Except.ok.injEq, Prod.mk.injEq] at h
        obtain ⟨rfl, rfl⟩ := h
        refine ⟨hutf, ?_, ?_⟩
        · rw [List.length_take]; omega
        · rw [List.length_drop]; omega
      · exact absurd h (by simp)
    · exact absurd h (by simp)

theorem parseBool_rest_length {l : List Nat} {b : Bool} {r : List Nat}
    (h : parseBool l = .ok (b, r)) : r.length + 1 = l.length := by
  unfold parseBool at h
  split at h <;> simp_all

theorem parseU8_rest_length {l : List Nat} {n : Nat} {r : List Nat}
    (h : parseU8 l = .ok (n, r)) : r.length + 1 = l.length := by
  unfold parseU8 at h
  split at h
  · exact absurd h (by simp)
  · simp only [Except.ok.injEq, Prod.mk.injEq] at h
    obtain ⟨-, rfl⟩ := h
    simp

/-- A decoded record's title came out of `parseString`: it is valid
UTF-8 and no longer than the decoded buffer. -/
theorem deserAccountState_title_facts {l : List Nat} {st : AccountState}
    {rem : List Nat} (h : deserAccountState l = .ok (st, rem)) :
    isValidUtf8 st.title = true ∧ st.title.length ≤ l.length := by
  unfold deserAccountState at h
  split at h
  · exact absurd h (by simp)
  · rename_i ini r1 h1
    split at h
    · exact absurd h (by simp)
    · rename_i rat r2 h2
      split at h
      · exact absurd h (by simp)
      · rename_i desc r3 h3
        split at h
        · exact absurd h (by simp)
        · rename_i tit r4 h4
          simp only [Except.ok.injEq, Prod.mk.injEq] at h
          obtain ⟨rfl, rfl⟩ := h
          have f1 := parseBool_rest_length h1
          have f2 := parseU8_rest_length h2
          have f3 := (parseString_facts h3).2.2
          have f4 := parseString_facts h4
          refine ⟨f4.1, ?_⟩
          show tit.length ≤ l.length
          omega

/-- Every run of `add_review` either leaves the account list unchanged,
or succeeded, or failed in the final borsh serialization. -/
theorem add_review_cases (program_id : Nat)
    (derive : Nat → List Nat → Nat × Nat) (accounts : List AccountInfo)
    (t : List Nat) (r : Nat) (d : List Nat) :
    (add_review program_id derive accounts t r d).accounts = accounts
    ∨ (add_review program_id derive accounts t r d).err = none
    ∨ (add_review program_id derive accounts t r d).err =
        some .borshIoError := by
  simp only [add_review]
  split
  · split
    · simp
    · split
      · simp
      · split
        · simp
        · split
          · simp
          · split <;> simp
  · simp

/-- Every run of `update_review` either leaves the account list
unchanged, or succeeded, or failed in the final borsh serialization. -/
theorem update_review_cases (program_id : Nat)
    (derive : Nat → List Nat → Nat × Nat) (accounts : List AccountInfo)
    (t : List Nat) (r : Nat) (d : List Nat) :
    (update_review program_id derive accounts t r d).accounts = accounts
    ∨ (update_review program_id derive accounts t r d).err = none
    ∨ (update_review program_id derive accounts t r d).err =
        some .borshIoError := by
  simp only [update_review]
  split
  · split
    · simp
    · split
      · simp
      · split
        · simp
        · split
          · simp
          · split
            · simp
            · split
              · simp
              · split <;> simp
  · simp

/-- Shape of a successful `update_review` run: the stored state
decoded, every check passed, and the slot now holds the serialization
of the record with the new rating and description but the *stored*
title, followed by the untouched tail of the buffer. -/
theorem update_review_ok_shape (program_id : Nat)
    (derive : Nat → List Nat → Nat × Nat)
    (initializer pda_account : AccountInfo) (rest : List AccountInfo)
    (t : List Nat) (r : Nat) (d : List Nat)
    (hok : (update_review program_id derive
        (initializer :: pda_account :: rest) t r d).err = none) :
    ∃ st rem,
      deserAccountState pda_account.data = .ok (st, rem)
      ∧ (serAccountState ⟨st.is_initialized, r, d, st.title⟩).length ≤
          pda_account.data.length
      ∧ (update_review program_id derive
            (initializer :: pda_account :: rest) t r d).accounts =
          initializer ::
            { pda_account with data :=
                (serAccountState ⟨st.is_initialized, r, d, st.title⟩ ++
                  pda_account.data.drop (serAccountState ⟨st.is_initialized, r, d, st.title⟩).length) } ::
            rest := by
  simp only [update_review] at hok ⊢
  split at hok
  · simp at hok
  · rename_i ho
    split at hok
    · simp at hok
    · rename_i hs
      split at hok
      · simp at hok
      · rename_i st rem hde
        split at hok
        · simp at hok
        · rename_i hpda
          split at hok
          · simp at hok
          · rename_i hini
            split at hok
            · simp at hok
            · rename_i hr
              split at hok
              · rename_i hw
                have hle := (writeToSlice_ok_iff _ _).mp hw
                refine ⟨st, rem, hde, hle, ?_⟩
                rw [if_neg hpda, if_neg hini, if_neg hr, if_pos hw,
                  writeToSlice_fst_of_le hle, if_neg ho, if_neg hs]
              · simp at hok

/-! ## Claim C8 -/

/-- C8: for every successful UpdateReview, the stored record's title
after the update equals its title before the update; only the rating
and the description change (`is_initialized` is also preserved); the
title is never overwritten. -/
theorem update_preserves_title (program_id : Nat)
    (derive : Nat → List Nat → Nat × Nat)
    (initializer pda_account : AccountInfo) (rest : List AccountInfo)
    (t : List Nat) (r : Nat) (d : List Nat)
    (hbuf : pda_account.data.length < 4294967296)
    (hdlen : d.length < 4294967296)
    (hdutf : isValidUtf8 d = true)
    (hok : (update_review program_id derive
        (initializer :: pda_account :: rest) t r d).err = none) :
    ∃ stOld rem stNew pdaNew,
      deserAccountState pda_account.data = .ok (stOld, rem)
      ∧ (update_review program_id derive
          (initializer :: pda_account :: rest) t r d).accounts =
          initializer :: pdaNew :: rest
      ∧ deserAccountState pdaNew.data =
          .ok (stNew,
            pda_account.data.drop (serAccountState stNew).length)
      ∧ stNew.title = stOld.title
      ∧ stNew.is_initialized = stOld.is_initialized
      ∧ stNew.rating = r
      ∧ stNew.description = d := by
  obtain ⟨st, rem, hde, hle, hacc⟩ :=
    update_review_ok_shape program_id derive initializer pda_account rest
      t r d hok
  have tf := deserAccountState_title_facts hde
  refine ⟨st, rem, ⟨st.is_initialized, r, d, st.title⟩,
    { pda_account with data :=
        (serAccountState ⟨st.is_initialized, r, d, st.title⟩ ++
          pda_account.data.drop (serAccountState ⟨st.is_initialized, r, d, st.title⟩).length) },
    hde, hacc, ?_, rfl, rfl, rfl, rfl⟩
  exact deser_serAccountState ⟨st.is_initialized, r, d, st.title⟩ _
    hdlen
    (by show st.title.length < 4294967296; have h5 := tf.2; omega)
    hdutf tf.1

/-- Witness for C8 at a concrete successful update: the creator of the
record titled "T" (`[84]`) updates rating and description; the stored
title is unchanged. -/
theorem update_preserves_title_witness :
    ∃ stOld rem stNew pdaNew,
      deserAccountState
          ([1, 3, 1, 0, 0, 0, 69, 1, 0, 0, 0, 84] ++ List.replicate 28 0) =
        .ok (stOld, rem)
      ∧ (update_review 11 (fun _ _ => (20, 254))
          (⟨12, true, 0, 0, []⟩ ::
            ⟨20, false, 11, 5,
              [1, 3, 1, 0, 0, 0, 69, 1, 0, 0, 0, 84] ++
                List.replicate 28 0⟩ :: [])
          [84] 8 [70, 71]).accounts =
          ⟨12, true, 0, 0, []⟩ :: pdaNew :: []
      ∧ deserAccountState pdaNew.data =
          .ok (stNew,
            (([1, 3, 1, 0, 0, 0, 69, 1, 0, 0, 0, 84] ++
                List.replicate 28 0 : List Nat)).drop
              (serAccountState stNew).length)
      ∧ stNew.title = stOld.title
      ∧ stNew.is_initialized = stOld.is_initialized
      ∧ stNew.rating = 8
      ∧ stNew.description = [70, 71] :=
  update_preserves_title 11 (fun _ _ => (20, 254))
    ⟨12, true, 0, 0, []⟩
    ⟨20, false, 11, 5,
      [1, 3, 1, 0, 0, 0, 69, 1, 0, 0, 0, 84] ++ List.replicate 28 0⟩
    [] [84] 8 [70, 71] (by decide) (by decide) (by decide) rfl

/-! ## Claim C6 -/

/-- C6: for every operation (review create, review update, delegated
transfer) and every input on which it returns an error — decode error,
authorization failure, rating-validation failure, or serialization
failure — no buffer write remains observable: the committed account
state (`hostCommit`, the host's all-or-nothing semantics from the spec)
equals the state before the operation.  Moreover, for every error other
than a serialization failure the handler's own in-process account state
is already unchanged (the review program performs no write before all
validation has passed), and the transfer program never writes account
data at all. -/
theorem operation_atomicity (program_id : Nat)
    (derive : Nat → List Nat → Nat × Nat)
    (deriveAuth : Nat → Nat × Nat)
    (unpackTokenAccount : List Nat → Except ProgramError TokenAccount)
    (unpackMint : List Nat → Except ProgramError MintData)
    (accounts accountsT : List AccountInfo)
    (instruction_data instruction_dataT : List Nat) :
    (∀ e, (processReview program_id derive accounts instruction_data).err =
        some e →
      hostCommit accounts
          (processReview program_id derive accounts instruction_data) =
        accounts
      ∧ (e ≠ .borshIoError →
        (processReview program_id derive accounts
            instruction_data).accounts = accounts))
    ∧ (∀ e, (cpiTransferRun program_id deriveAuth unpackTokenAccount
          unpackMint accountsT instruction_dataT).err = some e →
      hostCommit accountsT
          (cpiTransferRun program_id deriveAuth unpackTokenAccount
            unpackMint accountsT instruction_dataT) = accountsT
      ∧ (cpiTransferRun program_id deriveAuth unpackTokenAccount
          unpackMint accountsT instruction_dataT).accounts = accountsT) := by
  constructor
  · intro e he
    refine ⟨by simp [hostCommit, he], fun hne => ?_⟩
    unfold processReview at he ⊢
    split at he
    · rfl
    · rename_i t r d heq
      rcases add_review_cases program_id derive accounts t r d with h | h | h
      · exact h
      · rw [h] at he; simp at he
      · rw [h] at he
        injection he with h2
        exact absurd h2.symm hne
    · rename_i t r d heq
      rcases update_review_cases program_id derive accounts t r d
        with h | h | h
      · exact h
      · rw [h] at he; simp at he
      · rw [h] at he
        injection he with h2
        exact absurd h2.symm hne
  · intro e he
    refine ⟨by simp [hostCommit, he], ?_⟩
    unfold cpiTransferRun at he ⊢
    split <;> rfl

/-- Witness for C6: a decode failure of the review program (empty
instruction buffer) and a missing-account failure of the transfer
program both leave the committed and the in-process account state
untouched. -/
theorem operation_atomicity_witness :
    (hostCommit [] (processReview 0 (fun _ _ => (0, 0)) [] []) = []
      ∧ (processReview 0 (fun _ _ => (0, 0)) [] []).accounts = [])
    ∧ (hostCommit []
          (cpiTransferRun 0 (fun _ => (0, 0))
            (fun _ => .error .invalidAccountData)
            (fun _ => .error .invalidAccountData) [] []) = []
      ∧ (cpiTransferRun 0 (fun _ => (0, 0))
          (fun _ => .error .invalidAccountData)
          (fun _ => .error .invalidAccountData) [] []).accounts = []) :=
  ⟨⟨((operation_atomicity 0 (fun _ _ => (0, 0)) (fun _ => (0, 0))
        (fun _ => .error .invalidAccountData)
        (fun _ => .error .invalidAccountData) [] [] [] []).1
      .invalidInstructionData rfl).1,
    ((operation_atomicity 0 (fun _ _ => (0, 0)) (fun _ => (0, 0))
        (fun _ => .error .invalidAccountData)
        (fun _ => .error .invalidAccountData) [] [] [] []).1
      .invalidInstructionData rfl).2 (by decide)⟩,
   ((operation_atomicity 0 (fun _ _ => (0, 0)) (fun _ => (0, 0))
        (fun _ => .error .invalidAccountData)
        (fun _ => .error .invalidAccountData) [] [] [] []).2
      .notEnoughAccountKeys rfl)⟩

/-! ## Claim C9

The claim says the delegated-authority invoker does not detect an
authority mismatch locally and still dispatches, leaving the mismatch
to the external subsystem.  In the source, `process_instruction`
compares the supplied authority account against
`find_program_address(&[b"authority"], program_id)` and returns
`ProgramError::InvalidSeeds` *before* any dispatch. -/

/-- C9 counterexample: with an authority account (key 4) that differs
from the derived address (0), the invoker returns `InvalidSeeds`
locally and dispatches nothing, contradicting the claim that it still
dispatches and lets the external subsystem report the mismatch. -/
theorem cpi_local_authority_cex :
    ((⟨4, false, 0, 0, []⟩ : AccountInfo).key ≠
      ((fun (_ : Nat) => ((0 : Nat), (255 : Nat))) 1).1)
    ∧ cpiTransferProcess 1 (fun _ => (0, 255))
        (fun _ => .ok ⟨50⟩) (fun _ => .ok ⟨9⟩)
        (⟨10, false, 0, 0, []⟩ :: ⟨11, false, 0, 0, []⟩ ::
          ⟨12, false, 0, 0, []⟩ :: ⟨4, false, 0, 0, []⟩ ::
          ⟨13, false, 0, 0, []⟩ :: [])
        [] = .error .invalidSeeds :=
  ⟨by decide, rfl⟩

/-- C9 (amended): the invoker *does* check the supplied authority
account locally against the address derived from the seed
`b"authority"`, rejecting a mismatch with `InvalidSeeds` before any
dispatch; only when the check passes does it dispatch, and the
dispatched instruction always names the derived address as authority
and attaches the creation-time seed list `[b"authority", bump]` — a
mismatch between that derived authority and the source account's
actual owner is left to the external token program. -/
theorem cpi_authority_check (program_id : Nat)
    (deriveAuth : Nat → Nat × Nat)
    (unpackTokenAccount : List Nat → Except ProgramError TokenAccount)
    (unpackMint : List Nat → Except ProgramError MintData)
    (source mint destination authority token_program : AccountInfo)
    (rest : List AccountInfo) (instruction_data : List Nat) :
    ((deriveAuth program_id).1 ≠ authority.key →
      cpiTransferProcess program_id deriveAuth unpackTokenAccount
        unpackMint
        (source :: mint :: destination :: authority ::
          token_program :: rest) instruction_data = .error .invalidSeeds)
    ∧ (∀ instr,
      cpiTransferProcess program_id deriveAuth unpackTokenAccount
        unpackMint
        (source :: mint :: destination :: authority ::
          token_program :: rest) instruction_data = .ok instr →
      instr.authority = (deriveAuth program_id).1
      ∧ instr.signer_seeds =
          [authoritySeed ++ [(deriveAuth program_id).2]]) := by
  constructor
  · intro h
    simp [cpiTransferProcess, nextAccountInfo, h]
  · intro instr h
    simp only [cpiTransferProcess, nextAccountInfo] at h
    by_cases hk : (deriveAuth program_id).1 ≠ authority.key
    · rw [if_pos hk] at h
      simp at h
    · rw [if_neg hk] at h
      push_neg at hk
      cases hu : unpackTokenAccount source.data with
      | error e => rw [hu] at h; simp at h
      | ok ta =>
        rw [hu] at h
        cases hm : unpackMint mint.data with
        | error e => rw [hm] at h; simp at h
        | ok m =>
          rw [hm] at h
          simp only [Except.ok.injEq] at h
          subst h
          exact ⟨hk.symm, rfl⟩

/-- Witness for C9 (amended): local rejection at a mismatched
authority, and the dispatched instruction's authority and seeds at a
matching one. -/
theorem cpi_authority_check_witness :
    (cpiTransferProcess 1 (fun _ => (0, 255))
        (fun _ => .ok ⟨50⟩) (fun _ => .ok ⟨9⟩)
        (⟨10, false, 0, 0, []⟩ :: ⟨11, false, 0, 0, []⟩ ::
          ⟨12, false, 0, 0, []⟩ :: ⟨5, false, 0, 0, []⟩ ::
          ⟨13, false, 0, 0, []⟩ :: [])
        [] = .error .invalidSeeds)
    ∧ ((⟨13, 10, 11, 12, 4, 100, 9,
          [authoritySeed ++ [255]]⟩ : TransferCheckedInstr).authority =
        ((fun (_ : Nat) => ((4 : Nat), (255 : Nat))) 1).1
      ∧ (⟨13, 10, 11, 12, 4, 100, 9,
          [authoritySeed ++ [255]]⟩ : TransferCheckedInstr).signer_seeds =
        [authoritySeed ++ [((fun (_ : Nat) => ((4 : Nat), (255 : Nat))) 1).2]]) :=
  ⟨(cpi_authority_check 1 (fun _ => (0, 255))
      (fun _ => .ok ⟨50⟩) (fun _ => .ok ⟨9⟩)
      ⟨10, false, 0, 0, []⟩ ⟨11, false, 0, 0, []⟩ ⟨12, false, 0, 0, []⟩
      ⟨5, false, 0, 0, []⟩ ⟨13, false, 0, 0, []⟩ [] []).1 (by decide),
   (cpi_authority_check 1 (fun _ => (4, 255))
      (fun _ => .ok ⟨50⟩) (fun _ => .ok ⟨9⟩)
      ⟨10, false, 0, 0, []⟩ ⟨11, false, 0, 0, []⟩ ⟨12, false, 0, 0, []⟩
      ⟨4, false, 0, 0, []⟩ ⟨13, false, 0, 0, []⟩ [] []).2
      ⟨13, 10, 11, 12, 4, 100, 9, [authoritySeed ++ [255]]⟩ rfl⟩

/-! ## Claim C10 -/

/-- C10: every invocation of the transfer program that reaches the
dispatch requests the transfer of exactly 100 tokens, whatever the
source account's balance and the instruction data; the whole run is
independent of the instruction data (it is received and ignored), and
the source balance, though read, never influences the amount. -/
theorem cpi_amount_hardcoded (program_id : Nat)
    (deriveAuth : Nat → Nat × Nat)
    (unpackTokenAccount : List Nat → Except ProgramError TokenAccount)
    (unpackMint : List Nat → Except ProgramError MintData)
    (accounts : List AccountInfo) (i1 i2 : List Nat)
    (instr : TransferCheckedInstr) :
    (cpiTransferProcess program_id deriveAuth unpackTokenAccount
        unpackMint accounts i1 =
      cpiTransferProcess program_id deriveAuth unpackTokenAccount
        unpackMint accounts i2)
    ∧ (cpiTransferProcess program_id deriveAuth unpackTokenAccount
        unpackMint accounts i1 = .ok instr → instr.amount = 100) := by
  refine ⟨rfl, fun h => ?_⟩
  simp only [cpiTransferProcess] at h
  split at h
  · simp at h
  · split at h
    · simp at h
    · split at h
      · simp at h
      · split at h
        · simp at h
        · split at h
          · simp at h
          · split at h
            · simp at h
            · split at h
              · simp at h
              · split at h
                · simp at h
                · simp only [Except.ok.injEq] at h
                  subst h
                  rfl

/-- Witness for C10 at a concrete dispatching run: the amount is 100
even though the source balance is 50. -/
theorem cpi_amount_hardcoded_witness :
    (⟨13, 10, 11, 12, 4, 100, 9,
        [authoritySeed ++ [255]]⟩ : TransferCheckedInstr).amount = 100 :=
  (cpi_amount_hardcoded 1 (fun _ => (4, 255))
    (fun _ => .ok ⟨50⟩) (fun _ => .ok ⟨9⟩)
    (⟨10, false, 0, 0, []⟩ :: ⟨11, false, 0, 0, []⟩ ::
      ⟨12, false, 0, 0, []⟩ :: ⟨4, false, 0, 0, []⟩ ::
      ⟨13, false, 0, 0, []⟩ :: [])
    [] [7] ⟨13, 10, 11, 12, 4, 100, 9, [authoritySeed ++ [255]]⟩).2 rfl

end RiseIn
